import Mathlib

/-!
Verification of the citrusrules CLI (template fetcher).

The embedding models `src/src/utils.js` (`getTemplateFilename`,
`fetchAndWriteTemplates`) and `src/bin/cli.js` (flag dispatch).  Network and
filesystem effects are shallowly embedded: an oracle `NetOracle` gives the
outcome of the k-th HTTP GET (`some body` on a 2xx response, `none` on any
failure: network error, non-2xx status, timeout), an oracle `WriteOracle`
gives the outcome of the k-th file write, and every externally visible action
is recorded in an event trace.
-/

namespace Citrus

/-- Modelled from the spec: `src/config.js` is imported by `utils.js` and
`cli.js` but is not present under `src/`.  Per the spec (§6 Configuration) it
provides "a single base URL value for the remote template source, fixed at
build/config time".  No property below depends on the concrete value. -/
def TEMPLATE_URL_BASE : String := "https://raw.githubusercontent.com/jakerains/citrusrules/main/templates"

/-- The static camelCase → kebab-case mapping object literal inside
`getTemplateFilename` (`src/src/utils.js`). -/
def mapping : List (String × String) :=
  [("developmentWorkflow", "development-workflow"),
   ("errorHandling", "error-handling"),
   ("apiDesign", "api-design"),
   ("componentStandards", "component-standards"),
   ("dbBestPractices", "db-best-practices"),
   ("devopsCiCd", "devops-ci-cd"),
   ("mobileStandards", "mobile-standards"),
   ("testingStrategy", "testing-strategy"),
   ("TODOTracking", "TODO-tracking"),
   ("uvPythonProjects", "uv-python-projects")]

/-- `getTemplateFilename` from `src/src/utils.js`: `return mapping[name] || name;`
(every value in the table is a non-empty, hence truthy, string, so `||`
is exactly the identity fallback on a missing key). -/
def getTemplateFilename (name : String) : String :=
  match mapping.find? (fun p => p.1 == name) with
  | some p => p.2
  | none => name

/-- The filename used both in the URL and on disk: `${templateName}.mdc`. -/
def templateFile (name : String) : String :=
  getTemplateFilename name ++ ".mdc"

/-- `${TEMPLATE_URL_BASE}/${filename}`. -/
def templateUrl (filename : String) : String :=
  TEMPLATE_URL_BASE ++ "/" ++ filename

/-- `path.resolve(process.cwd(), '.cursor/rules')`. -/
def destDir (cwd : String) : String :=
  cwd ++ "/.cursor/rules"

/-- `path.join(dest, filename)`. -/
def pathJoin (dir filename : String) : String :=
  dir ++ "/" ++ filename

/-- Externally visible actions of one invocation, in order. -/
inductive Event where
  | ensureDir (dir : String)
  | netGet (url : String)
  | fileWrite (path : String) (content : String)
  | writeFail (path : String)
  | logSuccess (filename : String)
  | logError (filename : String)
deriving DecidableEq

/-- The local filesystem's files, as an association of full path to content. -/
abbrev FileMap := List (String × String)

/-- Content of the file at path `p`, if it exists. -/
def getFile (fs : FileMap) (p : String) : Option String :=
  (fs.find? (fun e => e.1 == p)).map (fun e => e.2)

/-- Overwrite (or create) the file at path `p` with content `c`. -/
def setFile (fs : FileMap) (p : String) (c : String) : FileMap :=
  (p, c) :: fs.filter (fun e => e.1 != p)

/-- Number of directory entries at path `p` (0 or 1 for a real filesystem). -/
def countPath (fs : FileMap) (p : String) : Nat :=
  (fs.filter (fun e => e.1 == p)).length

/-- Outcome of the k-th HTTP GET of the run: `some body` for a 2xx response,
`none` for any failure (network error, non-2xx status, timeout). -/
abbrev NetOracle := Nat → String → Option String

/-- Outcome of the write performed in the k-th loop iteration: `false` means
`fs.writeFile` throws (permissions, disk full, ...). -/
abbrev WriteOracle := Nat → Bool

/-- State threaded through `fetchAndWriteTemplates`: the files on disk, the
set of existing directories, the loop-iteration counter (one HTTP request per
iteration), and the trace of performed actions. -/
structure RunState where
  files : FileMap
  dirs : List String
  idx : Nat
  events : List Event
deriving DecidableEq

/-- `fs.ensureDir(dest)`: idempotent directory creation. -/
def ensureDir (s : RunState) (d : String) : RunState :=
  { s with dirs := if d ∈ s.dirs then s.dirs else d :: s.dirs
           events := s.events ++ [.ensureDir d] }

/-- One iteration of the `for (const name of names)` loop of
`fetchAndWriteTemplates` (`src/src/utils.js`): resolve the name, GET the URL,
and on success write the body to `path.join(dest, filename)` and log success;
any throw from the fetch or the write is caught and logged as a per-item
error (`catch (err) { console.error(...) }`), after which the loop continues. -/
def processOne (net : NetOracle) (wr : WriteOracle) (cwd : String)
    (s : RunState) (name : String) : RunState :=
  let templateName := getTemplateFilename name
  let filename := templateName ++ ".mdc"
  let url := TEMPLATE_URL_BASE ++ "/" ++ filename
  match net s.idx url with
  | some body =>
      if wr s.idx then
        { files := setFile s.files (pathJoin (destDir cwd) filename) body
          dirs := s.dirs
          idx := s.idx + 1
          events := s.events ++
            [.netGet url, .fileWrite (pathJoin (destDir cwd) filename) body,
             .logSuccess filename] }
      else
        { s with idx := s.idx + 1
                 events := s.events ++
                   [.netGet url, .writeFail (pathJoin (destDir cwd) filename),
                    .logError filename] }
  | none =>
      { s with idx := s.idx + 1
               events := s.events ++ [.netGet url, .logError filename] }

/-- `fetchAndWriteTemplates(names)` from `src/src/utils.js`: resolve the
destination directory against the current working directory, ensure it
exists, then run the per-name loop. -/
def fetchAndWriteTemplates (net : NetOracle) (wr : WriteOracle) (cwd : String)
    (fs0 : FileMap) (dirs0 : List String) (names : List String) : RunState :=
  let dest := destDir cwd
  let s0 := ensureDir { files := fs0, dirs := dirs0, idx := 0, events := [] } dest
  names.foldl (processOne net wr cwd) s0

/-- The parsed option object of `src/bin/cli.js` (commander camelCases the
declared long flags; keys appear in declaration order). -/
structure Opts where
  feature : Bool
  typescriptStrict : Bool
  gitCommit : Bool
  security : Bool
  performance : Bool
  errorHandling : Bool
  all : Bool
deriving DecidableEq

/-- `Object.keys(opts).filter((k) => opts[k] && k !== 'all')`: the truthy
option keys in declaration order, excluding `all`. -/
def optFlags (o : Opts) : List String :=
  (if o.feature then ["feature"] else []) ++
  (if o.typescriptStrict then ["typescriptStrict"] else []) ++
  (if o.gitCommit then ["gitCommit"] else []) ++
  (if o.security then ["security"] else []) ++
  (if o.performance then ["performance"] else []) ++
  (if o.errorHandling then ["errorHandling"] else [])

/-- The literal list used for `--all` in `src/bin/cli.js`. -/
def allTemplates : List String :=
  ["feature", "typescript-strict", "git-commit", "security", "performance",
   "error-handling"]

/-- Observable outcome of one CLI invocation: whether usage/help was printed
instead of running the orchestrator, the performed actions, the resulting
filesystem, and the process exit code. -/
structure CliOutcome where
  helpShown : Bool
  events : List Event
  files : FileMap
  dirs : List String
  exitCode : Nat
deriving DecidableEq

/-- The dispatch of `src/bin/cli.js`: `--all` fetches the fixed list; with no
truthy flag `program.help()` prints usage (commander exits with code 0);
otherwise the truthy flags are passed to `fetchAndWriteTemplates`.  Neither
file ever assigns `process.exitCode` or calls `process.exit` with a non-zero
code, and `fetchAndWriteTemplates` never rejects (every per-item error is
caught inside the loop), so the process exit code is 0 in every branch. -/
def cliMain (net : NetOracle) (wr : WriteOracle) (cwd : String)
    (fs0 : FileMap) (dirs0 : List String) (opts : Opts) : CliOutcome :=
  if opts.all then
    let s := fetchAndWriteTemplates net wr cwd fs0 dirs0 allTemplates
    { helpShown := false, events := s.events, files := s.files,
      dirs := s.dirs, exitCode := 0 }
  else
    let flags := optFlags opts
    if flags.length = 0 then
      { helpShown := true, events := [], files := fs0, dirs := dirs0,
        exitCode := 0 }
    else
      let s := fetchAndWriteTemplates net wr cwd fs0 dirs0 flags
      { helpShown := false, events := s.events, files := s.files,
        dirs := s.dirs, exitCode := 0 }

/-- The URLs of the HTTP GET requests recorded in a trace, in order. -/
def netGetUrls (evs : List Event) : List String :=
  evs.filterMap (fun e => match e with | .netGet u => some u | _ => none)

/-- Number of per-item result lines (success or error) in a trace. -/
def logCount (evs : List Event) : Nat :=
  (evs.filter (fun e => match e with
    | .logSuccess _ => true
    | .logError _ => true
    | _ => false)).length

/-- Number of per-item error lines in a trace. -/
def errorCount (evs : List Event) : Nat :=
  (evs.filter (fun e => match e with | .logError _ => true | _ => false)).length

/-- Number of write attempts (successful or failed) to path `p` in a trace. -/
def writeAttempts (evs : List Event) (p : String) : Nat :=
  (evs.filter (fun e => match e with
    | .fileWrite q _ => q == p
    | .writeFail q => q == p
    | _ => false)).length

/-! ### Helper lemmas -/

theorem string_append_cancel {s a b : String} (h : s ++ a = s ++ b) : a = b := by
cases s with | mk ls =>
cases a with | mk la =>
cases b with | mk lb =>
have h2 : ls ++ la = ls ++ lb := congrArg String.data h
exact congrArg String.mk (List.append_cancel_left h2)

theorem pathJoin_inj {d a b : String} (h : pathJoin d a = pathJoin d b) : a = b :=
string_append_cancel h

theorem getFile_setFile_eq (fs : FileMap) (p c : String) :
    getFile (setFile fs p c) p = some c := by
simp [getFile, setFile]

theorem find_filter_ne (fs : FileMap) (p q : String) (h : q ≠ p) :
    (fs.filter (fun e => e.1 != p)).find? (fun e => e.1 == q)
      = fs.find? (fun e => e.1 == q) := by
induction fs with
| nil => rfl
| cons e t ih =>
  by_cases hq : e.1 = q
  · have hp : e.1 ≠ p := by rw [hq]; exact h
    have h1 : (e.1 != p) = true := by simp [hp]
    have h2 : (e.1 == q) = true := by simp [hq]
    simp [List.filter_cons, h1, List.find?_cons, h2]
  · have h2 : (e.1 == q) = false := by simp [hq]
    by_cases hp : e.1 = p
    · have h1 : (e.1 != p) = false := by simp [hp]
      simp [List.filter_cons, h1, List.find?_cons, h2, ih]
    · have h1 : (e.1 != p) = true := by simp [hp]
      simp [List.filter_cons, h1, List.find?_cons, h2, ih]

theorem getFile_setFile_ne (fs : FileMap) (p c q : String) (h : q ≠ p) :
    getFile (setFile fs p c) q = getFile fs q := by
have hpq : p ≠ q := fun e => h e.symm
simp [getFile, setFile, hpq, find_filter_ne fs p q h]

theorem filter_eq_filter_ne (fs : FileMap) (p : String) :
    (fs.filter (fun e => e.1 != p)).filter (fun e => e.1 == p) = [] := by
induction fs with
| nil => rfl
| cons e t ih => by_cases h : e.1 = p <;> simp [List.filter_cons, h, ih]

theorem countPath_setFile (fs : FileMap) (p c : String) :
    countPath (setFile fs p c) p = 1 := by
simp [countPath, setFile, filter_eq_filter_ne]

theorem processOne_dirs (net : NetOracle) (wr : WriteOracle) (cwd : String)
    (s : RunState) (name : String) :
    (processOne net wr cwd s name).dirs = s.dirs := by
simp only [processOne]
split
· split <;> rfl
· rfl

theorem processOne_events_append (net : NetOracle) (wr : WriteOracle)
    (cwd : String) (s : RunState) (name : String) :
    ∃ t, (processOne net wr cwd s name).events = s.events ++ t := by
simp only [processOne]
split
· split
  · exact ⟨_, rfl⟩
  · exact ⟨_, rfl⟩
· exact ⟨_, rfl⟩

theorem netGetUrls_processOne (net : NetOracle) (wr : WriteOracle)
    (cwd : String) (s : RunState) (name : String) :
    netGetUrls (processOne net wr cwd s name).events
      = netGetUrls s.events ++ [templateUrl (templateFile name)] := by
simp only [processOne]
split
· split <;> simp [netGetUrls, templateUrl, templateFile]
· simp [netGetUrls, templateUrl, templateFile]

theorem logCount_processOne (net : NetOracle) (wr : WriteOracle)
    (cwd : String) (s : RunState) (name : String) :
    logCount (processOne net wr cwd s name).events
      = logCount s.events + 1 := by
simp only [processOne]
split
· split <;> simp [logCount, List.filter_append]
· simp [logCount, List.filter_append]

theorem foldl_dirs (net : NetOracle) (wr : WriteOracle) (cwd : String)
    (names : List String) : ∀ (s : RunState),
    (names.foldl (processOne net wr cwd) s).dirs = s.dirs := by
induction names with
| nil => intro s; rfl
| cons n t ih => intro s; rw [List.foldl_cons, ih, processOne_dirs]

theorem foldl_events_append (net : NetOracle) (wr : WriteOracle) (cwd : String)
    (names : List String) : ∀ (s : RunState),
    ∃ t, (names.foldl (processOne net wr cwd) s).events = s.events ++ t := by
induction names with
| nil => intro s; exact ⟨[], by simp⟩
| cons n t ih =>
  intro s
  obtain ⟨u, hu⟩ := ih (processOne net wr cwd s n)
  obtain ⟨v, hv⟩ := processOne_events_append net wr cwd s n
  exact ⟨v ++ u, by rw [List.foldl_cons, hu, hv, List.append_assoc]⟩

theorem netGetUrls_foldl (net : NetOracle) (wr : WriteOracle) (cwd : String)
    (names : List String) : ∀ (s : RunState),
    netGetUrls (names.foldl (processOne net wr cwd) s).events
      = netGetUrls s.events ++ names.map (fun n => templateUrl (templateFile n)) := by
induction names with
| nil => intro s; simp
| cons n t ih =>
  intro s
  rw [List.foldl_cons, ih, netGetUrls_processOne, List.map_cons,
    List.append_assoc]
  rfl

theorem logCount_foldl (net : NetOracle) (wr : WriteOracle) (cwd : String)
    (names : List String) : ∀ (s : RunState),
    logCount (names.foldl (processOne net wr cwd) s).events
      = logCount s.events + names.length := by
induction names with
| nil => intro s; simp
| cons n t ih =>
  intro s
  rw [List.foldl_cons, ih, logCount_processOne, List.length_cons]
  omega

theorem getFile_processOne (net : NetOracle) (wr : WriteOracle) (cwd : String)
    (s : RunState) (name fn : String)
    (hfail : ∀ k, net k (templateUrl fn) = none) :
    getFile (processOne net wr cwd s name).files (pathJoin (destDir cwd) fn)
      = getFile s.files (pathJoin (destDir cwd) fn) := by
cases hx : net s.idx (TEMPLATE_URL_BASE ++ "/" ++ (getTemplateFilename name ++ ".mdc")) with
| none => simp only [processOne, hx]
| some body =>
  have hne : fn ≠ getTemplateFilename name ++ ".mdc" := by
    intro he
    rw [← he] at hx
    have hf := hfail s.idx
    simp only [templateUrl] at hf
    rw [hf] at hx
    exact Option.noConfusion hx
  have hpne : pathJoin (destDir cwd) fn
      ≠ pathJoin (destDir cwd) (getTemplateFilename name ++ ".mdc") :=
    fun hp => hne (pathJoin_inj hp)
  simp only [processOne, hx]
  split
  · exact getFile_setFile_ne s.files _ body _ hpne
  · rfl

theorem writeAttempts_processOne (net : NetOracle) (wr : WriteOracle)
    (cwd : String) (s : RunState) (name fn : String)
    (hfail : ∀ k, net k (templateUrl fn) = none) :
    writeAttempts (processOne net wr cwd s name).events (pathJoin (destDir cwd) fn)
      = writeAttempts s.events (pathJoin (destDir cwd) fn) := by
cases hx : net s.idx (TEMPLATE_URL_BASE ++ "/" ++ (getTemplateFilename name ++ ".mdc")) with
| none =>
  simp only [processOne, hx]
  simp [writeAttempts, List.filter_append]
| some body =>
  have hne : fn ≠ getTemplateFilename name ++ ".mdc" := by
    intro he
    rw [← he] at hx
    have hf := hfail s.idx
    simp only [templateUrl] at hf
    rw [hf] at hx
    exact Option.noConfusion hx
  have hpne : pathJoin (destDir cwd) (getTemplateFilename name ++ ".mdc")
      ≠ pathJoin (destDir cwd) fn :=
    fun hp => hne (pathJoin_inj hp).symm
  simp only [processOne, hx]
  split <;> simp [writeAttempts, List.filter_append, hpne]

theorem getFile_foldl (net : NetOracle) (wr : WriteOracle) (cwd : String)
    (fn : String) (hfail : ∀ k, net k (templateUrl fn) = none)
    (names : List String) : ∀ (s : RunState),
    getFile (names.foldl (processOne net wr cwd) s).files (pathJoin (destDir cwd) fn)
      = getFile s.files (pathJoin (destDir cwd) fn) := by
induction names with
| nil => intro s; rfl
| cons n t ih =>
  intro s
  rw [List.foldl_cons, ih, getFile_processOne net wr cwd s n fn hfail]

theorem writeAttempts_foldl (net : NetOracle) (wr : WriteOracle) (cwd : String)
    (fn : String) (hfail : ∀ k, net k (templateUrl fn) = none)
    (names : List String) : ∀ (s : RunState),
    writeAttempts (names.foldl (processOne net wr cwd) s).events (pathJoin (destDir cwd) fn)
      = writeAttempts s.events (pathJoin (destDir cwd) fn) := by
induction names with
| nil => intro s; rfl
| cons n t ih =>
  intro s
  rw [List.foldl_cons, ih, writeAttempts_processOne net wr cwd s n fn hfail]

theorem fetchAndWriteTemplates_def (net : NetOracle) (wr : WriteOracle)
    (cwd : String) (fs0 : FileMap) (dirs0 : List String) (names : List String) :
    fetchAndWriteTemplates net wr cwd fs0 dirs0 names
      = names.foldl (processOne net wr cwd)
          { files := fs0
            dirs := if destDir cwd ∈ dirs0 then dirs0 else destDir cwd :: dirs0
            idx := 0
            events := [.ensureDir (destDir cwd)] } := rfl

theorem processOne_success (net : NetOracle) (wr : WriteOracle) (cwd : String)
    (s : RunState) (name body : String)
    (hnet : net s.idx (templateUrl (templateFile name)) = some body)
    (hwr : wr s.idx = true) :
    processOne net wr cwd s name =
      { files := setFile s.files (pathJoin (destDir cwd) (templateFile name)) body
        dirs := s.dirs
        idx := s.idx + 1
        events := s.events ++
          [.netGet (templateUrl (templateFile name)),
           .fileWrite (pathJoin (destDir cwd) (templateFile name)) body,
           .logSuccess (templateFile name)] } := by
simp only [templateFile, templateUrl] at hnet ⊢
simp [processOne, hnet, hwr]

/-! ### The claims -/

/-- C1: for every Template Identifier whose fetch succeeds (2xx) and whose
write does not throw, `fetchAndWriteTemplates` produces a file at
`{destDir}/{canonicalName}.mdc` — the destination directory resolved against
the current working directory — whose content equals exactly the body
returned by the HTTP GET to `{baseURL}/{canonicalName}.mdc`. -/
theorem fetch_success_round_trip (net : NetOracle) (wr : WriteOracle)
    (cwd : String) (fs0 : FileMap) (dirs0 : List String) (name body : String)
    (hnet : net 0 (templateUrl (templateFile name)) = some body)
    (hwr : wr 0 = true) :
    getFile (fetchAndWriteTemplates net wr cwd fs0 dirs0 [name]).files
      (pathJoin (destDir cwd) (templateFile name)) = some body := by
rw [fetchAndWriteTemplates_def, List.foldl_cons, List.foldl_nil,
  processOne_success net wr cwd _ name body hnet hwr]
exact getFile_setFile_eq _ _ _

/-- Witness for `fetch_success_round_trip` at a concrete input. -/
theorem fetch_success_round_trip_witness :
    getFile (fetchAndWriteTemplates (fun _ _ => some "security content")
        (fun _ => true) "/proj" [] [] ["security"]).files
      (pathJoin (destDir "/proj") (templateFile "security"))
      = some "security content" :=
  fetch_success_round_trip (fun _ _ => some "security content") (fun _ => true)
    "/proj" [] [] "security" "security content" rfl rfl

/-- C2: whatever the per-item fetch/write outcomes, no failure aborts the
loop: every requested identifier is attempted (exactly one HTTP GET per
requested identifier, at its canonical URL, in request order), and every
identifier yields exactly one captured per-item outcome line (success or
error) rather than an exception escaping `fetchAndWriteTemplates`. -/
theorem failures_do_not_abort (net : NetOracle) (wr : WriteOracle)
    (cwd : String) (fs0 : FileMap) (dirs0 : List String) (names : List String) :
    netGetUrls (fetchAndWriteTemplates net wr cwd fs0 dirs0 names).events
      = names.map (fun n => templateUrl (templateFile n)) ∧
    logCount (fetchAndWriteTemplates net wr cwd fs0 dirs0 names).events
      = names.length := by
rw [fetchAndWriteTemplates_def]
constructor
· rw [netGetUrls_foldl]
  simp [netGetUrls]
· rw [logCount_foldl]
  simp [logCount]

/-- C3 counterexample: requesting `--security` when the fetch fails yields a
run with one per-item failure, yet the process exit code is 0, contradicting
the claim that at least one failure makes the exit code non-zero. -/
theorem exit_code_counterexample :
    errorCount (cliMain (fun _ _ => none) (fun _ => true) "" [] []
        ⟨false, false, false, true, false, false, false⟩).events = 1 ∧
    (cliMain (fun _ _ => none) (fun _ => true) "" [] []
        ⟨false, false, false, true, false, false, false⟩).exitCode = 0 := by
constructor
· rfl
· rfl

/-- C3 (amended): the process exit code is 0 whenever the invocation
completes, on full success and also when one or more requested templates
failed — per-item failures are reported only through error messages, never
through the exit code (neither `cli.js` nor `utils.js` ever assigns
`process.exitCode` or calls `process.exit` with a non-zero value). -/
theorem exit_code_always_zero (net : NetOracle) (wr : WriteOracle)
    (cwd : String) (fs0 : FileMap) (dirs0 : List String) (opts : Opts) :
    (cliMain net wr cwd fs0 dirs0 opts).exitCode = 0 := by
simp only [cliMain]
split
· rfl
· split
  · rfl
  · rfl

/-- C4: when the requested set of identifiers is empty (no truthy flag and no
`--all`), the CLI shows help/usage text instead of invoking the orchestrator:
the event trace is empty (no network call, no directory creation, no write)
and the filesystem is unchanged. -/
theorem empty_request_no_effects (net : NetOracle) (wr : WriteOracle)
    (cwd : String) (fs0 : FileMap) (dirs0 : List String) (opts : Opts)
    (hall : opts.all = false) (hflags : optFlags opts = []) :
    (cliMain net wr cwd fs0 dirs0 opts).helpShown = true ∧
    (cliMain net wr cwd fs0 dirs0 opts).events = [] ∧
    (cliMain net wr cwd fs0 dirs0 opts).files = fs0 ∧
    (cliMain net wr cwd fs0 dirs0 opts).dirs = dirs0 := by
simp [cliMain, hall, hflags]

/-- Witness for `empty_request_no_effects`: no flag set. -/
theorem empty_request_no_effects_witness :
    (cliMain (fun _ _ => some "x") (fun _ => true) "" [] []
        ⟨false, false, false, false, false, false, false⟩).helpShown = true ∧
    (cliMain (fun _ _ => some "x") (fun _ => true) "" [] []
        ⟨false, false, false, false, false, false, false⟩).events = [] ∧
    (cliMain (fun _ _ => some "x") (fun _ => true) "" [] []
        ⟨false, false, false, false, false, false, false⟩).files = [] ∧
    (cliMain (fun _ _ => some "x") (fun _ => true) "" [] []
        ⟨false, false, false, false, false, false, false⟩).dirs = [] :=
  empty_request_no_effects (fun _ _ => some "x") (fun _ => true) "" [] []
    ⟨false, false, false, false, false, false, false⟩ rfl rfl

/-- C5: a Template Identifier with no entry in the static mapping table
resolves to itself (the identity fallback of `mapping[name] || name`). -/
theorem unmapped_identifier_identity (name : String)
    (h : name ∉ mapping.map Prod.fst) :
    getTemplateFilename name = name := by
unfold getTemplateFilename
have hf : mapping.find? (fun p => p.1 == name) = none := by
  rw [List.find?_eq_none]
  intro p hp hb
  exact h (eq_of_beq hb ▸ List.mem_map_of_mem Prod.fst hp)
rw [hf]

/-- Witness for `unmapped_identifier_identity`: `typescriptStrict` is a
CLI-producible identifier without a mapping entry. -/
theorem unmapped_identifier_identity_witness :
    getTemplateFilename "typescriptStrict" = "typescriptStrict" :=
  unmapped_identifier_identity "typescriptStrict" (by decide)

/-- C6 counterexample: `"dev-workflow"` has no entry in the mapping table
(the table's key is `"developmentWorkflow"`), so it resolves to itself: the
run on `["dev-workflow"]` targets `{base}/dev-workflow.mdc` and writes
`dev-workflow.mdc`; `development-workflow.mdc` is not produced. -/
theorem dev_workflow_counterexample :
    getTemplateFilename "dev-workflow" = "dev-workflow" ∧
    netGetUrls (fetchAndWriteTemplates (fun _ _ => some "X") (fun _ => true)
        "" [] [] ["dev-workflow"]).events = [templateUrl "dev-workflow.mdc"] ∧
    getFile (fetchAndWriteTemplates (fun _ _ => some "X") (fun _ => true)
        "" [] [] ["dev-workflow"]).files
      (pathJoin (destDir "") "dev-workflow.mdc") = some "X" ∧
    getFile (fetchAndWriteTemplates (fun _ _ => some "X") (fun _ => true)
        "" [] [] ["dev-workflow"]).files
      (pathJoin (destDir "") "development-workflow.mdc") = none := by
refine ⟨rfl, rfl, rfl, rfl⟩

/-- C6 (amended): the mapping entry is keyed by the camelCase identifier
`"developmentWorkflow"`: requesting it resolves to canonical name
`"development-workflow"`, so the fetch targets
`{base}/development-workflow.mdc` and the written file is
`.cursor/rules/development-workflow.mdc` (while `"dev-workflow"` falls
through the identity fallback unchanged). -/
theorem developmentWorkflow_resolution (net : NetOracle) (wr : WriteOracle)
    (cwd : String) (fs0 : FileMap) (dirs0 : List String) (body : String)
    (hnet : net 0 (templateUrl "development-workflow.mdc") = some body)
    (hwr : wr 0 = true) :
    getTemplateFilename "developmentWorkflow" = "development-workflow" ∧
    netGetUrls (fetchAndWriteTemplates net wr cwd fs0 dirs0
        ["developmentWorkflow"]).events
      = [templateUrl "development-workflow.mdc"] ∧
    getFile (fetchAndWriteTemplates net wr cwd fs0 dirs0
        ["developmentWorkflow"]).files
      (pathJoin (destDir cwd) "development-workflow.mdc") = some body := by
have hnet' : net 0 (templateUrl (templateFile "developmentWorkflow"))
    = some body := hnet
refine ⟨rfl, ?_, ?_⟩
· rw [fetchAndWriteTemplates_def, netGetUrls_foldl]
  simp only [List.map_cons, List.map_nil]
  rw [show netGetUrls [Event.ensureDir (destDir cwd)] = [] from rfl]
  rfl
· rw [fetchAndWriteTemplates_def, List.foldl_cons, List.foldl_nil,
    processOne_success net wr cwd _ "developmentWorkflow" body hnet' hwr]
  exact getFile_setFile_eq _ _ _

/-- Witness for `developmentWorkflow_resolution` at a concrete input. -/
theorem developmentWorkflow_resolution_witness :
    getTemplateFilename "developmentWorkflow" = "development-workflow" ∧
    netGetUrls (fetchAndWriteTemplates (fun _ _ => some "wf") (fun _ => true)
        "/p" [] [] ["developmentWorkflow"]).events
      = [templateUrl "development-workflow.mdc"] ∧
    getFile (fetchAndWriteTemplates (fun _ _ => some "wf") (fun _ => true)
        "/p" [] [] ["developmentWorkflow"]).files
      (pathJoin (destDir "/p") "development-workflow.mdc") = some "wf" :=
  developmentWorkflow_resolution (fun _ _ => some "wf") (fun _ => true)
    "/p" [] [] "wf" rfl rfl

/-- C7: requesting the same identifier twice in one invocation, with both
fetches succeeding (bodies `v1` then `v2`), leaves exactly one file at its
destination path, containing the content of the last successful fetch. -/
theorem duplicate_last_write_wins (net : NetOracle) (wr : WriteOracle)
    (cwd : String) (fs0 : FileMap) (dirs0 : List String) (name v1 v2 : String)
    (h0 : net 0 (templateUrl (templateFile name)) = some v1)
    (h1 : net 1 (templateUrl (templateFile name)) = some v2)
    (hw0 : wr 0 = true) (hw1 : wr 1 = true) :
    getFile (fetchAndWriteTemplates net wr cwd fs0 dirs0 [name, name]).files
      (pathJoin (destDir cwd) (templateFile name)) = some v2 ∧
    countPath (fetchAndWriteTemplates net wr cwd fs0 dirs0 [name, name]).files
      (pathJoin (destDir cwd) (templateFile name)) = 1 := by
rw [fetchAndWriteTemplates_def, List.foldl_cons,
  processOne_success net wr cwd _ name v1 h0 hw0, List.foldl_cons,
  List.foldl_nil, processOne_success net wr cwd _ name v2 h1 hw1]
exact ⟨getFile_setFile_eq _ _ _, countPath_setFile _ _ _⟩

/-- Witness for `duplicate_last_write_wins`: the mock server returns "v1"
then "v2" on successive calls. -/
theorem duplicate_last_write_wins_witness :
    getFile (fetchAndWriteTemplates
        (fun k _ => if k = 0 then some "v1" else some "v2") (fun _ => true)
        "" [] [] ["security", "security"]).files
      (pathJoin (destDir "") (templateFile "security")) = some "v2" ∧
    countPath (fetchAndWriteTemplates
        (fun k _ => if k = 0 then some "v1" else some "v2") (fun _ => true)
        "" [] [] ["security", "security"]).files
      (pathJoin (destDir "") (templateFile "security")) = 1 :=
  duplicate_last_write_wins
    (fun k _ => if k = 0 then some "v1" else some "v2") (fun _ => true)
    "" [] [] "security" "v1" "v2" rfl rfl rfl rfl

/-- C8: for a requested identifier all of whose fetches fail (network error,
non-2xx status, timeout — `none` from the oracle), no write to its
destination path is ever attempted, and the file at that path, if any
existed before the call, is left unchanged. -/
theorem failed_fetch_no_write (net : NetOracle) (wr : WriteOracle)
    (cwd : String) (fs0 : FileMap) (dirs0 : List String) (names : List String)
    (name : String) (hmem : name ∈ names)
    (hfail : ∀ k, net k (templateUrl (templateFile name)) = none) :
    writeAttempts (fetchAndWriteTemplates net wr cwd fs0 dirs0 names).events
      (pathJoin (destDir cwd) (templateFile name)) = 0 ∧
    getFile (fetchAndWriteTemplates net wr cwd fs0 dirs0 names).files
      (pathJoin (destDir cwd) (templateFile name))
      = getFile fs0 (pathJoin (destDir cwd) (templateFile name)) := by
rw [fetchAndWriteTemplates_def]
constructor
· rw [writeAttempts_foldl net wr cwd (templateFile name) hfail]
  simp [writeAttempts]
· rw [getFile_foldl net wr cwd (templateFile name) hfail]

/-- Witness for `failed_fetch_no_write`: a preexisting file survives a run
whose only fetch fails. -/
theorem failed_fetch_no_write_witness :
    writeAttempts (fetchAndWriteTemplates (fun _ _ => none) (fun _ => true)
        "" [(pathJoin (destDir "") (templateFile "security"), "old")] []
        ["security"]).events
      (pathJoin (destDir "") (templateFile "security")) = 0 ∧
    getFile (fetchAndWriteTemplates (fun _ _ => none) (fun _ => true)
        "" [(pathJoin (destDir "") (templateFile "security"), "old")] []
        ["security"]).files
      (pathJoin (destDir "") (templateFile "security"))
      = getFile [(pathJoin (destDir "") (templateFile "security"), "old")]
          (pathJoin (destDir "") (templateFile "security")) :=
  failed_fetch_no_write (fun _ _ => none) (fun _ => true)
    "" [(pathJoin (destDir "") (templateFile "security"), "old")] []
    ["security"] "security" (List.mem_singleton.mpr rfl) (fun _ => rfl)

/-- C9: for a non-empty request, the destination directory is ensured before
any identifier is processed (the first event of the trace), and after any
completed call the destination directory exists — even if every fetch
failed. -/
theorem dest_dir_created_first (net : NetOracle) (wr : WriteOracle)
    (cwd : String) (fs0 : FileMap) (dirs0 : List String) (names : List String)
    (hne : names ≠ []) :
    (fetchAndWriteTemplates net wr cwd fs0 dirs0 names).events.head?
      = some (.ensureDir (destDir cwd)) ∧
    destDir cwd ∈ (fetchAndWriteTemplates net wr cwd fs0 dirs0 names).dirs := by
rw [fetchAndWriteTemplates_def]
constructor
· obtain ⟨t, ht⟩ := foldl_events_append net wr cwd names _
  rw [ht]
  rfl
· rw [foldl_dirs]
  by_cases h : destDir cwd ∈ dirs0 <;> simp [h]

/-- Witness for `dest_dir_created_first`: every fetch fails, yet the
destination directory is created. -/
theorem dest_dir_created_first_witness :
    (fetchAndWriteTemplates (fun _ _ => none) (fun _ => true) "" [] []
        ["security"]).events.head? = some (.ensureDir (destDir "")) ∧
    destDir "" ∈ (fetchAndWriteTemplates (fun _ _ => none) (fun _ => true)
        "" [] [] ["security"]).dirs :=
  dest_dir_created_first (fun _ _ => none) (fun _ => true) "" [] []
    ["security"] (by decide)

/-- C10: the Name Resolver is not injective: `"developmentWorkflow"` (via the
mapping table) and `"development-workflow"` (via the identity fallback) are
distinct Template Identifiers with the same Canonical Name, hence the same
`.mdc` filename and the same fetch URL (and therefore the same local file
under any destination directory). -/
theorem resolver_not_injective :
    ("developmentWorkflow" : String) ≠ "development-workflow" ∧
    getTemplateFilename "developmentWorkflow"
      = getTemplateFilename "development-workflow" ∧
    templateFile "developmentWorkflow" = templateFile "development-workflow" ∧
    templateUrl (templateFile "developmentWorkflow")
      = templateUrl (templateFile "development-workflow") := by
refine ⟨by decide, rfl, rfl, rfl⟩

end Citrus
